import Mathlib

/-!
Verification development for the web-camera-kit repository.

The repository is a browser camera application.  The parts of it that the
properties below concern are embedded shallowly as pure Lean functions:

* `CPState` and the `handle...` functions model the UI state of the
  `CameraPreview` component (src/components/CameraPreview.tsx) and its event
  handlers; browser timers are modelled by pending flags plus explicit
  fire events, and a `MediaStream` by the boolean `hasMediaStream`.
* `shortenDeviceName` models the device-label shortening helper of the same
  component, with JavaScript strings embedded as `List Char` and each regex
  replacement of the source spelled out as a suffix operation.
* `CameraKitState`, `initCameraKit`, `setCameraSide`, `switchCamera` and
  `cleanup` model the `useCameraKit` hook (src/hooks/useCameraKit.ts).
  Opaque browser objects (streams, sessions, sources, lenses) are embedded
  as `Nat` identifiers; the outcome of each asynchronous browser call is an
  explicit environment field; side effects on media objects are recorded in
  an `Effects` record.
* `RecState` with `recStartRecording` / `recStopRecording` models the
  recording flow of the hook, including the value of `recordButtonReleased`
  captured by the 300 ms `setTimeout` closure.
* `canvasRecorderStart` models `CanvasRecorder.start`
  (src/utils/CanvasRecorder.ts) over an arbitrary codec priority list and
  platform support predicate (the settings module holding the concrete list
  is not part of the staged sources, so the list is a parameter).
-/

namespace WebCameraKit

/-! ## CameraPreview component state (src/components/CameraPreview.tsx) -/

/-- UI state of the `CameraPreview` component: the `useState` fields
`isReady`, `error`, `mediaStream` (as a presence flag), `isRecording`,
`retryCount`, `isInitializing`, plus `pendingInitTimeout` recording whether
the retry timeout of `handleUserMediaError` (`initTimeoutRef`) is scheduled. -/
structure CPState where
  isReady : Bool
  error : Option String
  hasMediaStream : Bool
  isRecording : Bool
  retryCount : Nat
  isInitializing : Bool
  pendingInitTimeout : Bool
deriving DecidableEq

/-- The `useState` initial values of the component. -/
def initialCPState : CPState :=
  { isReady := false, error := none, hasMediaStream := false,
    isRecording := false, retryCount := 0, isInitializing := false,
    pendingInitTimeout := false }

/-- Error message set on a terminal camera failure in PWA mode. -/
def pwaErrorMsg : String :=
  "Camera initialization failed. Please close and reopen the app, or refresh the page."

/-- Error message set on a terminal camera failure outside PWA mode. -/
def browserErrorMsg : String :=
  "Unable to access camera. Please check permissions and try refreshing the page."

/-- `handleUserMedia`: a resolved device-access promise. -/
def handleUserMedia (s : CPState) : CPState :=
  { s with
    isInitializing := false, isReady := true, error := none,
    hasMediaStream := true, retryCount := 0 }

/-- `handleUserMediaError`: a rejected device-access promise.  The component
clears readiness and the stream; while `retryCount < 3` it increments the
counter and schedules the retry timeout (which later clears the error and
restarts the webcam), leaving the `error` field untouched; at
`retryCount >= 3` it sets the permanent error message and schedules nothing. -/
def handleUserMediaError (isPWA : Bool) (s : CPState) : CPState :=
  let s1 : CPState :=
    { s with isInitializing := false, isReady := false, hasMediaStream := false }
  if s1.retryCount < 3 then
    { s1 with retryCount := s1.retryCount + 1, pendingInitTimeout := true }
  else
    { s1 with error := some (if isPWA then pwaErrorMsg else browserErrorMsg) }

/-- The retry timeout scheduled by `handleUserMediaError` fires: it clears
the error and re-enters the initializing state. -/
def initTimeoutFire (s : CPState) : CPState :=
  if s.pendingInitTimeout then
    { s with error := none, isInitializing := true, pendingInitTimeout := false }
  else s

/-- `handleVisibilityChange`, hidden branch: stop tracks, drop the stream,
stop recording and readiness. -/
def handleVisibilityHidden (s : CPState) : CPState :=
  { s with isReady := false, hasMediaStream := false, isRecording := false }

/-- `handleVisibilityChange`, visible branch: when the camera is not ready
and no error is displayed, clear the error, re-enter initialization and
increment `retryCount` (the increment forces a Webcam remount through the
`key` prop).  The 200 ms delay of the source is inlined. -/
def handleVisibilityVisible (s : CPState) : CPState :=
  if !s.isReady && s.error.isNone then
    { s with error := none, isInitializing := true, retryCount := s.retryCount + 1 }
  else s

/-- `handlePWARetry`: the manual retry button in PWA mode clears the error
and the retry counter and cancels the pending retry timeout.  (Its own
1000 ms timeout only resets `isInitializing`; it is inlined here.) -/
def handlePWARetry (s : CPState) : CPState :=
  { s with
    error := none, isReady := false, retryCount := 0,
    isInitializing := true, pendingInitTimeout := false }

/-- The effect that resets component state when `facing`, `isMobile` or
`selectedDeviceId` changes. -/
def resetOnFacingChange (s : CPState) : CPState :=
  { s with
    isInitializing := true, isReady := false, error := none,
    hasMediaStream := false, isRecording := false, retryCount := 0 }

/-- The events that drive the `CameraPreview` state. -/
inductive CPEvent where
  | userMedia
  | userMediaError
  | initTimeout
  | visHidden
  | visVisible
  | pwaRetry
  | facingChange
deriving DecidableEq

/-- One step of the component under an event. -/
def cpStep (isPWA : Bool) (s : CPState) : CPEvent → CPState
  | .userMedia => handleUserMedia s
  | .userMediaError => handleUserMediaError isPWA s
  | .initTimeout => initTimeoutFire s
  | .visHidden => handleVisibilityHidden s
  | .visVisible => handleVisibilityVisible s
  | .pwaRetry => handlePWARetry s
  | .facingChange => resetOnFacingChange s

/-- The state reached from the initial state by a sequence of events:
the reachable states of the component are exactly the values of `cpRun`. -/
def cpRun (isPWA : Bool) (es : List CPEvent) : CPState :=
  es.foldl (cpStep isPWA) initialCPState

/-- C1 counterexample: `retryCount` can exceed 3 in a reachable state.
Three consecutive device-access failures raise the counter to 3 without
setting an error; the app then goes to the background and returns, and the
visibility handler increments the counter to 4. -/
theorem retryCount_exceeds_three :
    (cpRun false
      [.userMediaError, .userMediaError, .userMediaError, .visVisible]).retryCount
      = 4 := by
  decide

/-- C1 (amended): `handleUserMediaError` by itself keeps `retryCount`
bounded by 3: starting from `retryCount ≤ 3` it cannot push the counter
past 3, it increments exactly while `retryCount < 3` (scheduling the retry
timeout and leaving the error untouched), and at `retryCount = 3` it leaves
the counter alone, sets the permanent error message, and schedules no
further retry.  The bound over all reachable states fails only because
`handleVisibilityChange` increments the counter without bound. -/
theorem handleUserMediaError_retry_spec (isPWA : Bool) (s : CPState)
    (h : s.retryCount ≤ 3) :
    (handleUserMediaError isPWA s).retryCount ≤ 3 ∧
    (s.retryCount < 3 →
      (handleUserMediaError isPWA s).retryCount = s.retryCount + 1 ∧
      (handleUserMediaError isPWA s).pendingInitTimeout = true ∧
      (handleUserMediaError isPWA s).error = s.error) ∧
    (s.retryCount = 3 →
      (handleUserMediaError isPWA s).retryCount = s.retryCount ∧
      (handleUserMediaError isPWA s).error =
        some (if isPWA then pwaErrorMsg else browserErrorMsg) ∧
      (handleUserMediaError isPWA s).pendingInitTimeout = s.pendingInitTimeout) := by
  unfold handleUserMediaError
  by_cases hlt : s.retryCount < 3 <;> simp [hlt] <;> omega


/-- C1 witness: the amended retry bound evaluated at the initial state. -/
theorem handleUserMediaError_retry_spec_witness :
    (handleUserMediaError false initialCPState).retryCount ≤ 3 :=
  (handleUserMediaError_retry_spec false initialCPState (by decide)).1

/-- C2 counterexample: the very first rejected device-access promise does
not set an error message; the `error` field stays `none` while the retry is
scheduled. -/
theorem handleUserMediaError_first_failure_no_message :
    (handleUserMediaError false initialCPState).error = none := by
  decide

/-- C2 (amended): every rejected device-access promise marks the camera as
not ready (`isReady` false, the media stream dropped); a non-null error
message is set exactly when `retryCount ≥ 3`, while for `retryCount < 3`
the error field is left unchanged and a retry is scheduled instead. -/
theorem handleUserMediaError_not_ready_spec (isPWA : Bool) (s : CPState) :
    (handleUserMediaError isPWA s).isReady = false ∧
    (handleUserMediaError isPWA s).hasMediaStream = false ∧
    (3 ≤ s.retryCount →
      (handleUserMediaError isPWA s).error =
        some (if isPWA then pwaErrorMsg else browserErrorMsg)) ∧
    (s.retryCount < 3 →
      (handleUserMediaError isPWA s).error = s.error ∧
      (handleUserMediaError isPWA s).pendingInitTimeout = true) := by
  unfold handleUserMediaError
  by_cases hlt : s.retryCount < 3 <;> simp [hlt]

/-! ## Device-name shortening (src/components/CameraPreview.tsx, `shortenDeviceName`)

JavaScript strings are embedded as `List Char`.  Each `replace` call of the
source uses an end-anchored regular expression, so it removes at most one
suffix; the leftmost-match rule makes the removed whitespace run maximal. -/

/-- ECMAScript `\s` (the class also used by `String.prototype.trim`). -/
def jsWS (c : Char) : Bool :=
  let n := c.toNat
  n = 0x20 || n = 0x09 || n = 0x0a || n = 0x0b || n = 0x0c || n = 0x0d ||
  n = 0xa0 || n = 0x1680 || (Nat.ble 0x2000 n && Nat.ble n 0x200a) ||
  n = 0x2028 || n = 0x2029 || n = 0x202f || n = 0x205f || n = 0x3000 ||
  n = 0xfeff

/-- Remove every trailing `\s` character. -/
def stripTrailWS (l : List Char) : List Char :=
  (l.reverse.dropWhile jsWS).reverse

/-- One `replace(/\s+LIT$/, '')`: when the string ends in the literal `lit`
preceded by at least one whitespace character, drop the literal together
with the whole whitespace run in front of it; otherwise leave the string. -/
def dropSuffixWSLit (lit : List Char) (l : List Char) : List Char :=
  let r := l.reverse
  if lit.reverse.isPrefixOf r then
    let rest := r.drop lit.length
    if (rest.head?.map jsWS).getD false then
      (rest.dropWhile jsWS).reverse
    else l
  else l

/-- `replace(/\s+\d+p$/, '')`: a trailing `p` preceded by at least one digit
preceded by at least one whitespace character. -/
def dropSuffixWSDigitsP (l : List Char) : List Char :=
  match l.reverse with
  | 'p' :: rest =>
    let ds := rest.takeWhile Char.isDigit
    let rest2 := rest.dropWhile Char.isDigit
    if !ds.isEmpty && (rest2.head?.map jsWS).getD false then
      (rest2.dropWhile jsWS).reverse
    else l
  | _ => l

/-- Index of the first `(` in `seg` that is preceded by a whitespace
character; `prev` is the character standing just before `seg`. -/
def findOpenIdx (prev : Char) (seg : List Char) (i : Nat) : Option Nat :=
  match seg with
  | [] => none
  | c :: rest => if c = '(' && jsWS prev then some i else findOpenIdx c rest (i + 1)

/-- `replace(/\s+\([^)]+\)$/, '')`: the string ends in `)`, the characters
between a matching `(` and that `)` contain no `)`, the `(` is preceded by
whitespace, and the parenthetical is non-empty.  The leftmost match starts
at the whitespace run before the first such `(` after the second-to-last
`)`. -/
def dropParenSuffix (l : List Char) : List Char :=
  match l.reverse with
  | ')' :: rest =>
    let segRev := rest.takeWhile (fun c => c ≠ ')')
    let preRev := rest.dropWhile (fun c => c ≠ ')')
    let seg := segRev.reverse
    match findOpenIdx ')' seg 0 with
    | some i =>
      if i + 1 < seg.length then
        preRev.reverse ++ stripTrailWS (seg.take i)
      else l
    | none => l
  | _ => l

/-- JavaScript `trim()`. -/
def jsTrim (l : List Char) : List Char :=
  stripTrailWS (l.dropWhile jsWS)

/-- The chain of replacements of `shortenDeviceName`, in source order:
parenthetical, `HD`, `\d+p`, `USB`, `Video`, `Device`, then `trim()`. -/
def cleanupName (l : List Char) : List Char :=
  jsTrim
    (dropSuffixWSLit "Device".toList
      (dropSuffixWSLit "Video".toList
        (dropSuffixWSLit "USB".toList
          (dropSuffixWSDigitsP
            (dropSuffixWSLit "HD".toList
              (dropParenSuffix l))))))

/-- Whether `pat` occurs as a contiguous substring of `l`
(JavaScript `String.prototype.includes`). -/
def listIncludes (pat : List Char) (l : List Char) : Bool :=
  pat.isPrefixOf l ||
    match l with
    | [] => false
    | _ :: rest => listIncludes pat rest

/-- The template literal `Camera (index + 1)` (JavaScript renders the
number in decimal for every integer below 2^53). -/
def cameraLabel (index : Nat) : List Char :=
  "Camera ".toList ++ (Nat.repr (index + 1)).toList

/-- The value of `shortened` just before the length check: the cleaned-up
name when its lowercasing contains "camera", the fallback label otherwise.
(JavaScript `toLowerCase` and Lean `Char.toLower` agree on ASCII, which is
all the containment check can be sensitive to.) -/
def preTruncated (name : List Char) (index : Nat) : List Char :=
  if listIncludes "camera".toList ((cleanupName name).map Char.toLower) then
    cleanupName name
  else cameraLabel index

/-- `shortenDeviceName` of the component: an empty name returns the fallback
label at once (without any length check); otherwise the cleaned-up name,
truncated to its first 17 characters plus "..." when longer than 20. -/
def shortenDeviceName (name : List Char) (index : Nat) : List Char :=
  if name = [] then cameraLabel index
  else if 20 < (preTruncated name index).length then
    (preTruncated name index).take 17 ++ "...".toList
  else preTruncated name index

/-- The fallback label is never empty. -/
theorem cameraLabel_ne_nil (i : Nat) : cameraLabel i ≠ [] := by
  have h7 : ("Camera ".toList).length = 7 := by decide
  intro h
  have hlen := congrArg List.length h
  simp [cameraLabel, List.length_append, h7] at hlen

/-- A non-empty pattern is no prefix of the empty list. -/
theorem camera_not_prefix_nil :
    ("camera".toList).isPrefixOf ([] : List Char) = false := by decide

/-- C10 counterexample: with an empty device name and index 9999999999999
(an ordinary 53-bit-safe integer, so JavaScript prints it in decimal) the
function returns "Camera 10000000000000", which has 21 characters — the
empty-name branch bypasses the length-20 truncation. -/
theorem shortenDeviceName_too_long :
    ¬ (shortenDeviceName [] 9999999999999).length ≤ 20 := by decide

/-- C10 (amended): `shortenDeviceName` always returns a non-empty string;
for a non-empty input name the result has at most 20 characters, and any
intermediate result longer than 20 characters is truncated to its first 17
characters followed by "..."; for an empty input name it returns exactly
"Camera " followed by the decimal rendering of index + 1, which exceeds 20
characters as soon as that number has 14 or more digits. -/
theorem shortenDeviceName_spec (name : List Char) (index : Nat) :
    shortenDeviceName name index ≠ [] ∧
    (name ≠ [] → (shortenDeviceName name index).length ≤ 20) ∧
    (name = [] → shortenDeviceName name index = cameraLabel index) ∧
    (name ≠ [] → 20 < (preTruncated name index).length →
      shortenDeviceName name index =
        (preTruncated name index).take 17 ++ "...".toList) := by
  by_cases hn : name = []
  · subst hn
    refine ⟨cameraLabel_ne_nil index, by simp, ?_, by simp⟩
    intro _
    simp [shortenDeviceName]
  · have hpre : preTruncated name index ≠ [] := by
      unfold preTruncated
      by_cases hinc :
          listIncludes "camera".toList ((cleanupName name).map Char.toLower) = true
      · rw [if_pos hinc]
        intro hcnil
        rw [hcnil] at hinc
        simp [listIncludes, camera_not_prefix_nil] at hinc
      · rw [if_neg hinc]
        exact cameraLabel_ne_nil index
    refine ⟨?_, ?_, by intro h; exact absurd h hn, ?_⟩
    · unfold shortenDeviceName
      rw [if_neg hn]
      by_cases hlen : 20 < (preTruncated name index).length
      · rw [if_pos hlen]
        intro h
        have := congrArg List.length h
        simp [List.length_append] at this
      · rw [if_neg hlen]
        exact hpre
    · intro _
      unfold shortenDeviceName
      rw [if_neg hn]
      by_cases hlen : 20 < (preTruncated name index).length
      · rw [if_pos hlen]
        have h3 : ("...".toList).length = 3 := by decide
        simp [List.length_append, List.length_take, h3]
      · rw [if_neg hlen]
        omega
    · intro _ hlen
      unfold shortenDeviceName
      rw [if_neg hn, if_pos hlen]

/-! ## The useCameraKit hook (src/hooks/useCameraKit.ts)

Opaque browser objects are embedded as `Nat` identifiers.  The outcome of
each asynchronous browser call is a field of an environment record, and
side effects on media objects are collected in an `Effects` record. -/

/-- The two camera sides of the hook. -/
inductive CameraSide where
  | BACK
  | FRONT
deriving DecidableEq

/-- The side `switchCamera` computes from the current one. -/
def oppositeSide : CameraSide → CameraSide
  | .BACK => .FRONT
  | .FRONT => .BACK

/-- The `facingMode` constraint passed to `getUserMedia` for a side. -/
def facingModeFor (side : CameraSide) : String :=
  if side = .BACK then "environment" else "user"

/-- The `CameraKitState` of the hook, object references as identifiers. -/
structure CameraKitState where
  cameraKit : Option Nat
  session : Option Nat
  userMediaStream : Option Nat
  mediaStreamSource : Option Nat
  lens : Option Nat
  currentCamera : CameraSide
  canvasRecorder : Option Nat
  recordButtonReleased : Bool
  audioContexts : List Nat
  monitorNodes : List Nat
  isInitialized : Bool
  isRecording : Bool
  error : Option String
deriving DecidableEq

/-- The hook's `useState` initial value.  The default camera side comes from
`settings.defaultCameraType`; the settings module is not among the staged
sources, so the side is a parameter. -/
def initialCameraKitState (defaultSide : CameraSide) : CameraKitState :=
  { cameraKit := none, session := none, userMediaStream := none,
    mediaStreamSource := none, lens := none, currentCamera := defaultSide,
    canvasRecorder := none, recordButtonReleased := false, audioContexts := [],
    monitorNodes := [], isInitialized := false, isRecording := false,
    error := none }

/-- Side effects on media objects performed by a hook action.
`stoppedAllTracks` lists the streams on which `getTracks().forEach(stop)`
ran, `stoppedVideoTracks` those on which only `getVideoTracks()[0].stop()`
ran, `mirroredSources` the sources that received the MirrorX transform, and
`requestedFacing` the `facingMode` values passed to `getUserMedia`. -/
structure Effects where
  stoppedAllTracks : List Nat := []
  stoppedVideoTracks : List Nat := []
  pausedSessions : List Nat := []
  playedSessions : List Nat := []
  requestedFacing : List String := []
  acquiredStreams : List Nat := []
  mirroredSources : List Nat := []
deriving DecidableEq

/-- Environment of one `initialize` call: whether each asynchronous step
succeeds, the identifiers of the objects a successful step would create,
and the message of the error thrown by the failing step. -/
structure InitEnv where
  bootstrapOk : Bool
  canvasReady : Bool
  createSessionOk : Bool
  getUserMediaOk : Bool
  setSourceOk : Bool
  loadLensOk : Bool
  applyLensOk : Bool
  cameraKitId : Nat
  sessionId : Nat
  streamId : Nat
  sourceId : Nat
  lensId : Nat
  errMsg : String
deriving DecidableEq

/-- How one `initialize` call ended. -/
inductive InitOutcome where
  | success
  | skippedAlready
  | skippedNoCanvas
  | failed
deriving DecidableEq

/-- Result of one `initialize` call. -/
structure InitResult where
  state : CameraKitState
  eff : Effects
  outcome : InitOutcome
deriving DecidableEq

/-- The state written by `initialize`'s catch block: `prev` with the error
message and the seven fields of the `setState` call.  Every other field is
carried over unchanged. -/
def initFailState (s : CameraKitState) (msg : String) : CameraKitState :=
  { s with
    error := some msg, isInitialized := false, cameraKit := none,
    session := none, userMediaStream := none, mediaStreamSource := none,
    lens := none }

/-- `initialize`'s catch block as a result: it stops the tracks of
`state.userMediaStream` and pauses `state.session` — the values captured by
the callback's closure, i.e. those of the pre-call state `s`, not the
objects created during the failing call. -/
def initCatchResult (s : CameraKitState) (pre : Effects) (msg : String) :
    InitResult :=
  { state := initFailState s msg,
    eff := { pre with
      stoppedAllTracks := pre.stoppedAllTracks ++ s.userMediaStream.toList,
      pausedSessions := pre.pausedSessions ++ s.session.toList },
    outcome := .failed }

/-- The hook's `initialize`: the already-initialized guard, the silent
return when the canvas is not ready (the error field has been cleared by
then), the sequence bootstrap → createSession → getUserMedia →
createMediaStreamSource/setSource → MirrorX for a front camera → play →
loadLens → applyLens, and the catch block on any thrown step. -/
def initCameraKit (defaultSide : CameraSide) (env : InitEnv)
    (s : CameraKitState) : InitResult :=
  if s.isInitialized || s.cameraKit.isSome then
    { state := s, eff := {}, outcome := .skippedAlready }
  else if !env.bootstrapOk then
    initCatchResult s {} env.errMsg
  else if !env.canvasReady then
    { state := { s with error := none }, eff := {}, outcome := .skippedNoCanvas }
  else if !env.createSessionOk then
    initCatchResult s {} env.errMsg
  else if !env.getUserMediaOk then
    initCatchResult s { requestedFacing := [facingModeFor defaultSide] } env.errMsg
  else if !env.setSourceOk then
    initCatchResult s
      { requestedFacing := [facingModeFor defaultSide],
        acquiredStreams := [env.streamId] } env.errMsg
  else if !env.loadLensOk then
    initCatchResult s
      { requestedFacing := [facingModeFor defaultSide],
        acquiredStreams := [env.streamId],
        mirroredSources := if defaultSide = .FRONT then [env.sourceId] else [],
        playedSessions := [env.sessionId] } env.errMsg
  else if !env.applyLensOk then
    initCatchResult s
      { requestedFacing := [facingModeFor defaultSide],
        acquiredStreams := [env.streamId],
        mirroredSources := if defaultSide = .FRONT then [env.sourceId] else [],
        playedSessions := [env.sessionId] } env.errMsg
  else
    { state := { s with
        error := none, cameraKit := some env.cameraKitId,
        session := some env.sessionId, userMediaStream := some env.streamId,
        mediaStreamSource := some env.sourceId, lens := some env.lensId,
        isInitialized := true },
      eff := {
        requestedFacing := [facingModeFor defaultSide],
        acquiredStreams := [env.streamId],
        mirroredSources := if defaultSide = .FRONT then [env.sourceId] else [],
        playedSessions := [env.sessionId] },
      outcome := .success }

/-- C9: once initialization has succeeded (`isInitialized` true, or a
CameraKit instance already stored), `initialize` returns immediately: the
state is unchanged and no effect is performed. -/
theorem initCameraKit_idempotent (defaultSide : CameraSide) (env : InitEnv)
    (s : CameraKitState)
    (h : s.isInitialized = true ∨ s.cameraKit.isSome = true) :
    initCameraKit defaultSide env s =
      { state := s, eff := {}, outcome := .skippedAlready } := by
  unfold initCameraKit
  rcases h with h | h <;> simp [h]

/-- C9 witness: a second `initialize` on an initialized state is a no-op. -/
theorem initCameraKit_idempotent_witness :
    initCameraKit .BACK
        { bootstrapOk := true, canvasReady := true, createSessionOk := true,
          getUserMediaOk := true, setSourceOk := true, loadLensOk := true,
          applyLensOk := true, cameraKitId := 1, sessionId := 2, streamId := 3,
          sourceId := 4, lensId := 5, errMsg := "boom" }
        { (initialCameraKitState .BACK) with isInitialized := true } =
      { state := { (initialCameraKitState .BACK) with isInitialized := true },
        eff := {}, outcome := .skippedAlready } :=
  initCameraKit_idempotent .BACK
    { bootstrapOk := true, canvasReady := true, createSessionOk := true,
      getUserMediaOk := true, setSourceOk := true, loadLensOk := true,
      applyLensOk := true, cameraKitId := 1, sessionId := 2, streamId := 3,
      sourceId := 4, lensId := 5, errMsg := "boom" }
    { (initialCameraKitState .BACK) with isInitialized := true }
    (Or.inl rfl)

/-- C3 counterexample: from the initial state, with every step succeeding
except `loadLens`, the call fails, a media stream (id 5) was acquired, and
yet no stream at all is stopped — the catch block only stops the pre-call
state's stream, which is null.  The claim that a failed initialization
stops any partially acquired stream is therefore false. -/
theorem initCameraKit_leaked_stream :
    (initCameraKit .BACK
        { bootstrapOk := true, canvasReady := true, createSessionOk := true,
          getUserMediaOk := true, setSourceOk := true, loadLensOk := false,
          applyLensOk := true, cameraKitId := 1, sessionId := 2, streamId := 5,
          sourceId := 3, lensId := 4, errMsg := "lens load failed" }
        (initialCameraKitState .BACK)).outcome = .failed ∧
    (initCameraKit .BACK
        { bootstrapOk := true, canvasReady := true, createSessionOk := true,
          getUserMediaOk := true, setSourceOk := true, loadLensOk := false,
          applyLensOk := true, cameraKitId := 1, sessionId := 2, streamId := 5,
          sourceId := 3, lensId := 4, errMsg := "lens load failed" }
        (initialCameraKitState .BACK)).eff.acquiredStreams = [5] ∧
    (initCameraKit .BACK
        { bootstrapOk := true, canvasReady := true, createSessionOk := true,
          getUserMediaOk := true, setSourceOk := true, loadLensOk := false,
          applyLensOk := true, cameraKitId := 1, sessionId := 2, streamId := 5,
          sourceId := 3, lensId := 4, errMsg := "lens load failed" }
        (initialCameraKitState .BACK)).eff.stoppedAllTracks = [] := by
  decide

set_option maxHeartbeats 1600000 in
/-- C3 (amended): when `initialize` fails by a thrown step, the resulting
state has the thrown error message, `isInitialized` false, and `cameraKit`,
`session`, `userMediaStream`, `mediaStreamSource` and `lens` all null; the
streams whose tracks are stopped and the sessions paused are exactly those
recorded in the pre-call state — an object acquired during the failing call
itself is not cleaned up.  (When the canvas is not ready, `initialize`
instead returns early with only the error field cleared.) -/
theorem initCameraKit_failure_spec (defaultSide : CameraSide) (env : InitEnv)
    (s : CameraKitState)
    (h : (initCameraKit defaultSide env s).outcome = .failed) :
    (initCameraKit defaultSide env s).state.error = some env.errMsg ∧
    (initCameraKit defaultSide env s).state.isInitialized = false ∧
    (initCameraKit defaultSide env s).state.cameraKit = none ∧
    (initCameraKit defaultSide env s).state.session = none ∧
    (initCameraKit defaultSide env s).state.userMediaStream = none ∧
    (initCameraKit defaultSide env s).state.mediaStreamSource = none ∧
    (initCameraKit defaultSide env s).state.lens = none ∧
    (initCameraKit defaultSide env s).eff.stoppedAllTracks
      = s.userMediaStream.toList ∧
    (initCameraKit defaultSide env s).eff.pausedSessions = s.session.toList := by
  unfold initCameraKit at h ⊢
  split_ifs at h ⊢ with h1 h2 h3 h4 h5 h6 h7 h8 <;>
    simp_all [initCatchResult, initFailState]

/-- C3 witness: the amended failure contract evaluated at a failing
bootstrap from the initial state. -/
theorem initCameraKit_failure_spec_witness :
    (initCameraKit .BACK
        { bootstrapOk := false, canvasReady := true, createSessionOk := true,
          getUserMediaOk := true, setSourceOk := true, loadLensOk := true,
          applyLensOk := true, cameraKitId := 1, sessionId := 2, streamId := 3,
          sourceId := 4, lensId := 5, errMsg := "boot failed" }
        (initialCameraKitState .BACK)).state.error = some "boot failed" :=
  (initCameraKit_failure_spec .BACK
    { bootstrapOk := false, canvasReady := true, createSessionOk := true,
      getUserMediaOk := true, setSourceOk := true, loadLensOk := true,
      applyLensOk := true, cameraKitId := 1, sessionId := 2, streamId := 3,
      sourceId := 4, lensId := 5, errMsg := "boot failed" }
    (initialCameraKitState .BACK) (by decide)).1

/-- Environment of one `setCameraSide` call. -/
structure SideEnv where
  getUserMediaOk : Bool
  streamId : Nat
  sourceId : Nat
  errMsg : String
deriving DecidableEq

/-- The hook's `setCameraSide`: pause the session and stop the first video
track of the current stream when one exists, request a new stream with the
facing mode of the target side, attach a new source (MirrorX exactly for
the front side), play the session and store stream, source and the new
`currentCamera`; on a `getUserMedia` failure only the error message is set
and every other field — `currentCamera` included — is left unchanged. -/
def setCameraSide (env : SideEnv) (s : CameraKitState) (toSide : CameraSide) :
    CameraKitState × Effects :=
  let pre : Effects :=
    if s.userMediaStream.isSome then
      { pausedSessions := s.session.toList,
        stoppedVideoTracks := s.userMediaStream.toList }
    else {}
  if env.getUserMediaOk then
    ({ s with
        userMediaStream := some env.streamId,
        mediaStreamSource := some env.sourceId, currentCamera := toSide },
     { pre with
        requestedFacing := [facingModeFor toSide],
        acquiredStreams := [env.streamId],
        mirroredSources := if toSide = .FRONT then [env.sourceId] else [],
        playedSessions := pre.playedSessions ++ s.session.toList })
  else
    ({ s with error := some env.errMsg },
     { pre with requestedFacing := [facingModeFor toSide] })

/-- The hook's `switchCamera`: `setCameraSide` toward the opposite side. -/
def switchCamera (env : SideEnv) (s : CameraKitState) :
    CameraKitState × Effects :=
  setCameraSide env s (oppositeSide s.currentCamera)

/-- C5: `switchCamera` always requests the side opposite to
`currentCamera` (BACK ↦ FRONT, FRONT ↦ BACK, visible in the facing mode it
passes to `getUserMedia`); on success `currentCamera` becomes the requested
side, so two successful calls restore the original value; on a device
access failure `currentCamera` is unchanged. -/
theorem switchCamera_spec (env env2 : SideEnv) (s : CameraKitState) :
    (switchCamera env s).2.requestedFacing
      = [facingModeFor (oppositeSide s.currentCamera)] ∧
    (env.getUserMediaOk = true →
      (switchCamera env s).1.currentCamera = oppositeSide s.currentCamera) ∧
    (env.getUserMediaOk = false →
      (switchCamera env s).1.currentCamera = s.currentCamera) ∧
    (env.getUserMediaOk = true → env2.getUserMediaOk = true →
      (switchCamera env2 (switchCamera env s).1).1.currentCamera
        = s.currentCamera) := by
  have hopp : ∀ c : CameraSide, oppositeSide (oppositeSide c) = c := by
    intro c; cases c <;> rfl
  unfold switchCamera setCameraSide
  rcases hg : env.getUserMediaOk <;> rcases hg2 : env2.getUserMediaOk <;>
    simp [hg, hg2, hopp]

/-- C6: `cleanup` stops every track of the current user media stream and
pauses the session. -/
def cleanup (s : CameraKitState) : CameraKitState × Effects :=
  ({ s with userMediaStream := none, session := none, isInitialized := false },
   { stoppedAllTracks := s.userMediaStream.toList,
     pausedSessions := s.session.toList })

/-- C6: `cleanup` stops every track of the current stream and pauses the
session, sets `userMediaStream` and `session` to null and `isInitialized`
to false, and leaves every other field of the state unchanged. -/
theorem cleanup_spec (s : CameraKitState) :
    (cleanup s).1.userMediaStream = none ∧
    (cleanup s).1.session = none ∧
    (cleanup s).1.isInitialized = false ∧
    (cleanup s).2.stoppedAllTracks = s.userMediaStream.toList ∧
    (cleanup s).2.pausedSessions = s.session.toList ∧
    (cleanup s).1.currentCamera = s.currentCamera ∧
    (cleanup s).1.canvasRecorder = s.canvasRecorder ∧
    (cleanup s).1.lens = s.lens ∧
    (cleanup s).1.cameraKit = s.cameraKit ∧
    (cleanup s).1.audioContexts = s.audioContexts ∧
    (cleanup s).1.monitorNodes = s.monitorNodes ∧
    (cleanup s).1.isRecording = s.isRecording ∧
    (cleanup s).1.error = s.error ∧
    (cleanup s).1.recordButtonReleased = s.recordButtonReleased ∧
    (cleanup s).1.mediaStreamSource = s.mediaStreamSource := by
  simp [cleanup]

/-- How a frame is drawn by `processFrame` of `CameraPreview.tsx`. -/
inductive DrawOp where
  | rotated
  | mirrored
  | plain
deriving DecidableEq

/-- The drawing decision of `processFrame`: on mobile, a portrait video in
landscape orientation is rotated; otherwise a mobile frame is mirrored
exactly for the front ("user") camera; on desktop every frame is
mirrored. -/
def processFrameOp (isMobile portraitVideo landscapeOrientation : Bool)
    (facing : String) : DrawOp :=
  if isMobile then
    if portraitVideo && landscapeOrientation then .rotated
    else if facing = "user" then .mirrored
    else .plain
  else .mirrored

/-- C7: every desktop frame is mirrored; a mobile frame in the non-rotated
branch is mirrored exactly when the facing is "user"; and in the Camera Kit
path a successful `setCameraSide` applies MirrorX to the new source exactly
when the requested side is FRONT. -/
theorem frame_mirroring_spec (p l : Bool) (facing : String) (env : SideEnv)
    (s : CameraKitState) (side : CameraSide) :
    processFrameOp false p l facing = .mirrored ∧
    (processFrameOp true p l facing = .mirrored ↔
      ¬(p = true ∧ l = true) ∧ facing = "user") ∧
    (env.getUserMediaOk = true →
      ((setCameraSide env s side).2.mirroredSources = [env.sourceId] ↔
        side = .FRONT)) := by
  refine ⟨rfl, ?_, ?_⟩
  · unfold processFrameOp
    rcases hp : p <;> rcases hl : l <;>
      by_cases hf : facing = "user" <;> simp [hf]
  · intro hg
    unfold setCameraSide
    rcases hside : side <;> simp [hg, hside]

/-! ## Recording flow of the hook (src/hooks/useCameraKit.ts)

`startRecording` schedules the actual `canvasRecorder.start()` through a
300 ms `setTimeout` whose closure reads `state.recordButtonReleased` from
the render in which the handler was created — that is, the value from
before the press, not the value at the moment the timer fires.  The model
stores that captured value in `pendingStart`. -/

/-- State of the recording flow: the recorder, the `recordButtonReleased`
and `isRecording` flags, `startTimestampRef`, the scheduled delayed start
with its captured flag value, and whether the recorder is running. -/
structure RecState where
  hasRecorder : Bool
  recordButtonReleased : Bool
  isRecording : Bool
  startTimestamp : Nat
  pendingStart : Option Bool
  recorderRunning : Bool
deriving DecidableEq

/-- A fresh recording state (recorder not yet set up). -/
def initialRecState : RecState :=
  { hasRecorder := false, recordButtonReleased := false, isRecording := false,
    startTimestamp := 0, pendingStart := none, recorderRunning := false }

/-- `startRecording` at time `now`: set up the recorder when missing, clear
`recordButtonReleased`, raise `isRecording`, remember the timestamp, and
schedule the delayed start, capturing the pre-press value of
`recordButtonReleased` in the timer closure. -/
def recStartRecording (s : RecState) (now : Nat) : RecState :=
  { s with
    hasRecorder := true, recordButtonReleased := false, isRecording := true,
    startTimestamp := now, pendingStart := some s.recordButtonReleased }

/-- The 300 ms timer fires: the recorder starts unless the captured
(pre-press) value of `recordButtonReleased` was true. -/
def recDelayedStartFire (s : RecState) : RecState :=
  match s.pendingStart with
  | some captured =>
    if captured then { s with pendingStart := none }
    else { s with pendingStart := none, recorderRunning := true }
  | none => s

/-- What `stopRecording` saves. -/
inductive RecOutput where
  | recorderStop
  | savedSnapshot (name : String)
  | savedVideo (name : String)
deriving DecidableEq

/-- `stopRecording` at time `now`: set `recordButtonReleased`, clear
`isRecording`, and branch on the elapsed time since `startRecording`: under
300 ms the recorder is stopped and a snapshot saved under the timestamped
snapshot name, otherwise the recorder is stopped and the recording saved
under the timestamped video name.  `snapBase` and `recBase` stand for
`settings.snapshotFileName` and `settings.recordedFileName` (the settings
module is not among the staged sources) and `ts` for the ISO timestamp. -/
def recStopRecording (snapBase recBase ts : String) (s : RecState)
    (now : Nat) : RecState × List RecOutput :=
  let s1 : RecState :=
    { s with
      recordButtonReleased := true, isRecording := false,
      recorderRunning := false }
  if now - s.startTimestamp < 300 then
    (s1, [.recorderStop, .savedSnapshot (snapBase ++ "_" ++ ts)])
  else
    (s1, [.recorderStop, .savedVideo (recBase ++ "_" ++ ts)])

/-- C4: the duration branch works as claimed — a 100 ms press-and-release
saves a snapshot photo and a 500 ms one saves the timestamped video — but
the skip does not: after the button is released at 100 ms
(`recordButtonReleased` is true), the 300 ms timer still starts the
recorder, because its closure captured the pre-press value false.  The
recording flow therefore starts an orphan recorder instead of skipping the
start when the button was already released. -/
theorem recDelayedStart_fires_after_release :
    (recStopRecording "snapshot" "recording" "ts"
        (recStartRecording initialRecState 0) 100).2
      = [.recorderStop, .savedSnapshot "snapshot_ts"] ∧
    (recStopRecording "snapshot" "recording" "ts"
        (recStartRecording initialRecState 0) 500).2
      = [.recorderStop, .savedVideo "recording_ts"] ∧
    (recStopRecording "snapshot" "recording" "ts"
        (recStartRecording initialRecState 0) 100).1.recordButtonReleased
      = true ∧
    (recDelayedStartFire
        (recStopRecording "snapshot" "recording" "ts"
          (recStartRecording initialRecState 0) 100).1).recorderRunning
      = true := by
  decide

/-! ## CanvasRecorder.start (src/utils/CanvasRecorder.ts)

The codec priority list `settings.recodeVideoCodecs` and the platform's
`MediaRecorder.isTypeSupported` are parameters: the settings module is not
among the staged sources, and support is a property of the platform. -/

/-- One entry of the codec priority list. -/
structure CodecOption where
  codecString : String
  container : String
deriving DecidableEq

/-- The selection loop of `CanvasRecorder.start`: the `foundTypes` flag
makes it keep the first entry whose codec string the platform supports. -/
def findSupportedCodec (supported : String → Bool) :
    List CodecOption → Option CodecOption
  | [] => none
  | c :: rest =>
    if supported c.codecString then some c
    else findSupportedCodec supported rest

/-- What one `start()` call on a fresh recorder did. -/
structure StartState where
  supportedCodec : Option String
  recordFormat : String
  recorderCreated : Bool
  recorderStarted : Bool
  thrown : Option String
deriving DecidableEq

/-- `CanvasRecorder.start` on a fresh recorder: select the first supported
codec and its container; throw "No supported video format found" when no
entry is supported (before any MediaRecorder is created); otherwise create
the MediaRecorder and start it, each step turning a platform failure into
its own error. -/
def canvasRecorderStart (supported : String → Bool)
    (codecs : List CodecOption) (createOk startOk : Bool) : StartState :=
  match findSupportedCodec supported codecs with
  | none =>
    { supportedCodec := none, recordFormat := "", recorderCreated := false,
      recorderStarted := false,
      thrown := some "No supported video format found" }
  | some c =>
    if !createOk then
      { supportedCodec := some c.codecString, recordFormat := c.container,
        recorderCreated := false, recorderStarted := false,
        thrown := some "Failed to create MediaRecorder" }
    else if !startOk then
      { supportedCodec := some c.codecString, recordFormat := c.container,
        recorderCreated := true, recorderStarted := false,
        thrown := some "Failed to start recording" }
    else
      { supportedCodec := some c.codecString, recordFormat := c.container,
        recorderCreated := true, recorderStarted := true, thrown := none }

/-- The selection loop picks exactly the first supported entry. -/
theorem findSupportedCodec_eq_find (supported : String → Bool)
    (codecs : List CodecOption) :
    findSupportedCodec supported codecs
      = codecs.find? (fun c => supported c.codecString) := by
  induction codecs with
  | nil => rfl
  | cons c rest ih =>
    unfold findSupportedCodec
    rw [List.find?]
    by_cases hc : supported c.codecString <;> simp [hc, ih]

/-- C8: `start` selects as `supportedCodec` the first entry of the codec
priority list the platform reports supported and sets `recordFormat` to
that entry's container; it throws "No supported video format found" if and
only if no entry is supported, and in that case no MediaRecorder is
created and recording does not start. -/
theorem canvasRecorderStart_spec (supported : String → Bool)
    (codecs : List CodecOption) (createOk startOk : Bool) :
    ((canvasRecorderStart supported codecs createOk startOk).supportedCodec
      = (codecs.find? (fun c => supported c.codecString)).map
          (fun c => c.codecString)) ∧
    ((canvasRecorderStart supported codecs createOk startOk).recordFormat
      = ((codecs.find? (fun c => supported c.codecString)).map
          (fun c => c.container)).getD "") ∧
    ((canvasRecorderStart supported codecs createOk startOk).thrown
        = some "No supported video format found" ↔
      codecs.find? (fun c => supported c.codecString) = none) ∧
    (codecs.find? (fun c => supported c.codecString) = none →
      (canvasRecorderStart supported codecs createOk startOk).recorderCreated
          = false ∧
      (canvasRecorderStart supported codecs createOk startOk).recorderStarted
          = false) := by
  unfold canvasRecorderStart
  rw [findSupportedCodec_eq_find]
  rcases hf : codecs.find? (fun c => supported c.codecString) with _ | c <;>
    rw [hf]
  · simp
  · rcases hc : createOk <;> rcases hs : startOk <;> simp

end WebCameraKit
